import Mathlib

/-!
Shallow embedding of the cetus authoritative DNS server (query pipeline in
`src/handle.rs`, metrics fabric in `src/metrics.rs`, redis storage backend in
`src/redis.rs`), together with theorems settling the specification claims.

Modelling conventions:
* Domain names (`LowerName`) are lists of labels in leaf-first order, so
  `www.example.com.` is `["www", "example", "com"]`; `LowerName::zone_of`
  becomes a suffix test on the label lists.
* Effectful calls performed by the handler (geo lookup, storage lookups,
  the `zones()` refresh call) are passed in as explicit result values.
* Prometheus counters are association lists from label values to counts;
  `IntCounterVec::with_label_values(k).inc()` bumps the entry for `k`,
  creating it at value 1 when it did not exist yet.
* A Rust panic (`expect` on `None`) is an explicit `panicked` outcome.
-/

namespace Cetus

/-- A `LowerName`: labels of a fully qualified domain name, leaf first. -/
abbrev Name := List String

/-- Rust `LowerName::zone_of`: `zone` is `name` itself or an ancestor of it. -/
def zone_of (zone name : Name) : Bool :=
  zone.isSuffixOf name

/-- DNS message type (`trust_dns` `MessageType`). -/
inductive MessageType
  | query
  | response
deriving DecidableEq

/-- DNS opcode; `trust_dns` `OpCode` has exactly these four variants. -/
inductive OpCode
  | query
  | status
  | notify
  | update
deriving DecidableEq

/-- DNS class (`trust_dns` `DNSClass`, the variants used by the server). -/
inductive DNSClass
  | IN
  | CH
  | HS
  | NONE
  | ANY
deriving DecidableEq

/-- String label used for the `class` dimension of the `query_class` metric. -/
def DNSClass.to_string : DNSClass → String
  | .IN => "IN"
  | .CH => "CH"
  | .HS => "HS"
  | .NONE => "NONE"
  | .ANY => "ANY"

/-- DNS response code (the codes the server reads or produces). -/
inductive ResponseCode
  | noError
  | formErr
  | servFail
  | nxDomain
  | notImp
  | refused
deriving DecidableEq

/-- String label used for the `code` dimension of the `response_code` metric. -/
def ResponseCode.to_str : ResponseCode → String
  | .noError => "NOERROR"
  | .formErr => "FORMERR"
  | .servFail => "SERVFAIL"
  | .nxDomain => "NXDOMAIN"
  | .notImp => "NOTIMP"
  | .refused => "REFUSED"

/-- DNS record type (the variants the claims exercise, plus an escape
hatch for the remaining types, which the handler treats uniformly). -/
inductive RecordType
  | A
  | AAAA
  | CNAME
  | MX
  | NS
  | SOA
  | TXT
  | other (s : String)
deriving DecidableEq

/-- String label of a record type (`RecordType::into::<&str>`). -/
def RecordType.label : RecordType → String
  | .A => "A"
  | .AAAA => "AAAA"
  | .CNAME => "CNAME"
  | .MX => "MX"
  | .NS => "NS"
  | .SOA => "SOA"
  | .TXT => "TXT"
  | .other s => s

/-- Transport protocol of the inbound request (`trust_dns` `Protocol`). -/
inductive Protocol
  | udp
  | tcp
deriving DecidableEq

/-- String label of a protocol, as used in the `connection_types` metric. -/
def Protocol.to_string : Protocol → String
  | .udp => "udp"
  | .tcp => "tcp"

/-- Label of the `ip_version` dimension for IPv4 sources. -/
def IPV4 : String := "IPv4"

/-- Label of the `ip_version` dimension for IPv6 sources. -/
def IPV6 : String := "IPv6"

/-- The DNS header fields the handler reads or writes. The handler copies the
request header wholesale (`*request.header()`) and then mutates individual
fields, so untouched fields are echoed into responses. -/
structure Header where
  mtype : MessageType
  opcode : OpCode
  rcode : ResponseCode
  aa : Bool
deriving DecidableEq

/-- A DNS resource record as stored by a backend (`StorageRecord` wraps a
`trust_dns` `Record`; the handler reads it via `as_record` and mutates only
the owner name via `as_mut_record().set_name(..)`). The owner name keeps its
original casing, hence plain labels rather than a `Name`. -/
structure StorageRecord where
  name : List String
  rtype : RecordType
  rdata : Nat
deriving DecidableEq

/-- An inbound request as seen by `DnsHandler::handle_request`. -/
structure Request where
  header : Header
  qclass : DNSClass
  /-- lowercased query name, `query.name()` -/
  qname : Name
  /-- original cased query name, `query.original().name()` -/
  qnameOriginal : List String
  qtype : RecordType
  /-- whether `request.src()` is an IPv4 address -/
  srcIsV4 : Bool
  proto : Protocol
  /-- Payload of `request.edns()`, kept opaque -/
  edns : Option Nat
deriving DecidableEq

/-- The DNS message handed to `send_response`: header plus the four record
sections and the echoed EDNS payload. `authority` is the name-server section
(into which `MessageResponseBuilder::build` places the SOA records). -/
structure DnsResponse where
  header : Header
  answers : List StorageRecord
  authority : List StorageRecord
  additionals : List StorageRecord
  edns : Option Nat
deriving DecidableEq

/-- Bump the prometheus counter keyed by `k`: increment it when present,
create it with value 1 when absent. -/
def bump {α : Type} [DecidableEq α] (k : α) : List (α × Nat) → List (α × Nat)
  | [] => [(k, 1)]
  | (k', n) :: t => if k = k' then (k', n + 1) :: t else (k', n) :: bump k t

/-- Read a counter value, defaulting to 0 for an absent series. -/
def countOf {α : Type} [DecidableEq α] (k : α) : List (α × Nat) → Nat
  | [] => 0
  | (k', n) :: t => if k = k' then n else countOf k t

/-- The five counter vectors of one `ZoneMetrics` value. -/
structure ZoneCounters where
  query_class : List (String × Nat)
  record_types : List (String × Nat)
  connection_types : List ((String × String) × Nat)
  response_codes : List (String × Nat)
  country_queries : List (String × Nat)
deriving DecidableEq

/-- The mutable metric state of `MetricsInner`: the per-zone table
(`CHashMap<LowerName, ZoneMetrics>`) and the unknown-zone bucket. -/
structure MetricsState where
  zoneMetrics : List (Name × ZoneCounters)
  unknownMetrics : ZoneCounters
deriving DecidableEq

/-- Rust `CHashMap::get`: the counters registered for `z`, if any. -/
def lookupZone (z : Name) : List (Name × ZoneCounters) → Option ZoneCounters
  | [] => none
  | (z', c) :: t => if z = z' then some c else lookupZone z t

/-- Apply `f` to the counters of `z` when the zone is present; otherwise
leave the table unchanged (the `if let Some(metrics) = ...get(zone)` idiom). -/
def modifyZone (z : Name) (f : ZoneCounters → ZoneCounters) :
    List (Name × ZoneCounters) → List (Name × ZoneCounters)
  | [] => []
  | (z', c) :: t => if z = z' then (z', f c) :: t else (z', c) :: modifyZone z f t

/-- Rust `Metrics::increment_zone_record_type`. -/
def increment_zone_record_type (m : MetricsState) (z : Name) (rt : RecordType) :
    MetricsState :=
  { m with zoneMetrics :=
      modifyZone z (fun c => { c with record_types := bump rt.label c.record_types }) m.zoneMetrics }

/-- Rust `Metrics::increment_zone_response_code`. -/
def increment_zone_response_code (m : MetricsState) (z : Name) (rc : ResponseCode) :
    MetricsState :=
  { m with zoneMetrics :=
      modifyZone z (fun c => { c with response_codes := bump rc.to_str c.response_codes }) m.zoneMetrics }

/-- Rust `Metrics::increment_zone_query_class`. -/
def increment_zone_query_class (m : MetricsState) (z : Name) (cl : DNSClass) :
    MetricsState :=
  { m with zoneMetrics :=
      modifyZone z (fun c => { c with query_class := bump cl.to_string c.query_class }) m.zoneMetrics }

/-- Rust `Metrics::increment_zone_connection_type`. -/
def increment_zone_connection_type (m : MetricsState) (z : Name) (srcIsV4 : Bool)
    (proto : Protocol) : MetricsState :=
  { m with zoneMetrics :=
      modifyZone z (fun c => { c with connection_types := bump (if srcIsV4 then IPV4 else IPV6, proto.to_string) c.connection_types }) m.zoneMetrics }

/-- Rust `Metrics::increment_zone_country_query`. -/
def increment_zone_country_query (m : MetricsState) (z : Name) (country : String) :
    MetricsState :=
  { m with zoneMetrics :=
      modifyZone z (fun c => { c with country_queries := bump country c.country_queries }) m.zoneMetrics }

/-- Rust `Metrics::increment_unknown_zone_record_type`. -/
def increment_unknown_zone_record_type (m : MetricsState) (rt : RecordType) :
    MetricsState :=
  { m with unknownMetrics :=
      { m.unknownMetrics with record_types := bump rt.label m.unknownMetrics.record_types } }

/-- Rust `Metrics::increment_unknown_zone_response_code`. -/
def increment_unknown_zone_response_code (m : MetricsState) (rc : ResponseCode) :
    MetricsState :=
  { m with unknownMetrics :=
      { m.unknownMetrics with response_codes := bump rc.to_str m.unknownMetrics.response_codes } }

/-- Rust `Metrics::increment_unknown_zone_query_class`. -/
def increment_unknown_zone_query_class (m : MetricsState) (cl : DNSClass) :
    MetricsState :=
  { m with unknownMetrics :=
      { m.unknownMetrics with query_class := bump cl.to_string m.unknownMetrics.query_class } }

/-- Rust `Metrics::increment_unknown_zone_connection_type`. -/
def increment_unknown_zone_connection_type (m : MetricsState) (srcIsV4 : Bool)
    (proto : Protocol) : MetricsState :=
  { m with unknownMetrics :=
      { m.unknownMetrics with connection_types := bump (if srcIsV4 then IPV4 else IPV6, proto.to_string) m.unknownMetrics.connection_types } }

/-- Rust `Metrics::increment_unknown_zone_country_query`. -/
def increment_unknown_zone_country_query (m : MetricsState) (country : String) :
    MetricsState :=
  { m with unknownMetrics :=
      { m.unknownMetrics with country_queries := bump country m.unknownMetrics.country_queries } }

/-- The result of storage `lookup_records` as seen by the handler: an error,
or the tri-state `Option<Vec<StorageRecord>>`. -/
abbrev LookupResult := Except Unit (Option (List StorageRecord))

/-- The result of `GeoLocator::lookup_ip`: an error, or
`(country_iso, continent_code)`. -/
abbrev GeoResult := Except Unit (Option String × Option String)

/-- What a single request handling did: sent a message, or panicked inside
the handler (a Rust `expect` failure). -/
inductive Outcome
  | panicked
  | sent (resp : DnsResponse)
deriving DecidableEq

/-- Metric state after handling together with the outcome. -/
structure RunResult where
  metrics : MetricsState
  outcome : Outcome
deriving DecidableEq

/-- Rust `DnsHandler::reply_error`: copy the request header, set
`message_type(Response)`, and build `error_msg(&header, code)`, which sets
the response code on that copy. The AA flag is not touched, so it keeps the
value from the request header; all sections are empty and no EDNS is set. -/
def reply_error (req : Request) (code : ResponseCode) : DnsResponse :=
  { header := { req.header with mtype := .response, rcode := code }
    answers := []
    authority := []
    additionals := []
    edns := none }

/-- Rust `DnsHandler::query_zone`: the zone path. `geo`, `soaLookup` and
`recLookup` are the results of the geo lookup, of
`lookup_records(zone, zone, SOA)` and of
`lookup_records(query.name(), zone, query.query_type())`. The `.expect` on
the SOA lookup makes the `Ok(None)` case a panic. -/
def query_zone (req : Request) (zone : Name) (geo : GeoResult)
    (soaLookup : LookupResult) (recLookup : LookupResult)
    (m : MetricsState) : RunResult :=
  let m := increment_zone_connection_type m zone req.srcIsV4 req.proto
  let m := increment_zone_record_type m zone req.qtype
  let m := increment_zone_query_class m zone req.qclass
  match geo with
  | .error _ =>
    let m := increment_zone_response_code m zone .servFail
    ⟨m, .sent (reply_error req .servFail)⟩
  | .ok (country, _continent) =>
    let m := match country with
      | some c => increment_zone_country_query m zone c
      | none => m
    let header := { req.header with aa := true, mtype := .response }
    match soaLookup with
    | .error _ =>
      let m := increment_zone_response_code m zone .servFail
      ⟨m, .sent (reply_error req .servFail)⟩
    | .ok none =>
      ⟨m, .panicked⟩
    | .ok (some soas) =>
      match recLookup with
      | .error _ =>
        let m := increment_zone_response_code m zone .servFail
        ⟨m, .sent (reply_error req .servFail)⟩
      | .ok records =>
        let header := if records = none then { header with rcode := .nxDomain } else header
        let required_soas := match records with
          | none => soas
          | some rs => if rs.isEmpty then soas else []
        let answers := (records.getD []).map fun sr => { sr with name := req.qnameOriginal }
        let msg : DnsResponse :=
          { header := header
            answers := answers
            authority := required_soas
            additionals := []
            edns := req.edns }
        let m := increment_zone_response_code m zone msg.header.rcode
        ⟨m, .sent msg⟩

/-- Rust `DnsHandler::query_unknown_zone`: count the query in the UNKNOWN bucket,
resolve the country (ServFail on geo error), then reply Refused. -/
def query_unknown_zone (req : Request) (geo : GeoResult) (m : MetricsState) :
    RunResult :=
  let m := increment_unknown_zone_query_class m req.qclass
  let m := increment_unknown_zone_connection_type m req.srcIsV4 req.proto
  let m := increment_unknown_zone_record_type m req.qtype
  match geo with
  | .error _ =>
    let m := increment_unknown_zone_response_code m .servFail
    ⟨m, .sent (reply_error req .servFail)⟩
  | .ok (country, _continent) =>
    let m := match country with
      | some c => increment_unknown_zone_country_query m c
      | none => m
    let m := increment_unknown_zone_response_code m .refused
    ⟨m, .sent (reply_error req .refused)⟩

/-- Rust `DnsHandler::find_authority`: first zone of the snapshot that is a zone
of the query name. -/
def find_authority (zones : List Name) (qname : Name) : Option Name :=
  zones.find? fun zone => zone_of zone qname

/-- Rust `DnsHandler::query`: refuse classes other than IN, then dispatch on the
authority lookup. -/
def query (req : Request) (zones : List Name) (geo : GeoResult)
    (soaLookup : LookupResult) (recLookup : LookupResult)
    (m : MetricsState) : RunResult :=
  if req.qclass ≠ DNSClass.IN then
    ⟨m, .sent (reply_error req .refused)⟩
  else
    match find_authority zones req.qname with
    | some zone => query_zone req zone geo soaLookup recLookup m
    | none => query_unknown_zone req geo m

/-- Rust `DnsHandler::handle_request`: reject `Response` messages and non-`Query`
opcodes with NotImp, then handle the query. -/
def handle_request (req : Request) (zones : List Name) (geo : GeoResult)
    (soaLookup : LookupResult) (recLookup : LookupResult)
    (m : MetricsState) : RunResult :=
  match req.header.mtype with
  | .response => ⟨m, .sent (reply_error req .notImp)⟩
  | .query =>
    match req.header.opcode with
    | .query => query req zones geo soaLookup recLookup m
    | .status => ⟨m, .sent (reply_error req .notImp)⟩
    | .notify => ⟨m, .sent (reply_error req .notImp)⟩
    | .update => ⟨m, .sent (reply_error req .notImp)⟩

/-- State touched by one iteration of `DnsHandler::zone_loader`: the
published zone cache and the key set of the per-zone metrics table. -/
structure LoaderState where
  cache : List Name
  table : List Name
deriving DecidableEq

/-- One loader tick together with the zones it registered and unregistered. -/
structure TickResult where
  state : LoaderState
  registered : List Name
  unregistered : List Name
deriving DecidableEq

/-- Insert a key into the table key set (`CHashMap::insert`; re-inserting an
existing key replaces the value and leaves the key set unchanged). -/
def tableInsert (t : List Name) (z : Name) : List Name :=
  if t.contains z then t else t ++ [z]

/-- Remove a key from the table key set (`CHashMap::remove`). -/
def tableRemove (t : List Name) (z : Name) : List Name :=
  t.filter fun z' => z' ≠ z

/-- One iteration of the `zone_loader` loop body. On a `zones()` error, log
and `continue`: nothing changes. Otherwise register metrics for zones not in
the cache, unregister metrics for cached zones no longer present, and
publish the fetched list as the new cache. -/
def zone_loader_tick (s : LoaderState) (zonesResult : Except Unit (List Name)) :
    TickResult :=
  match zonesResult with
  | .error _ => ⟨s, [], []⟩
  | .ok zones =>
    let toRegister := zones.filter fun z => !s.cache.contains z
    let toUnregister := s.cache.filter fun z => !zones.contains z
    let table := toRegister.foldl tableInsert s.table
    let table := toUnregister.foldl tableRemove table
    ⟨⟨zones, table⟩, toRegister, toUnregister⟩

/-- The prometheus registry: the list of registered collectors, identified by
metric name and the value of the constant `zone` label. -/
structure PromRegistry where
  collectors : List (String × String)
deriving DecidableEq

/-- Rust `ZoneMetrics::register`: registers the five counter vectors for the zone
label (the literal `UNKNOWN` when called with `None`). -/
def ZoneMetrics.register (zoneLabel : String) (reg : PromRegistry) : PromRegistry :=
  { collectors := reg.collectors ++
      [("response_code", zoneLabel), ("query_type", zoneLabel), ("query_class", zoneLabel),
       ("connection_types", zoneLabel), ("country_queries", zoneLabel)] }

/-- Rust `ZoneMetrics::unregister`: removes the `response_code`,
`connection_types` and `query_type` collectors from the registry. The
`query_class` and `country_queries` collectors are not removed. -/
def ZoneMetrics.unregister (zoneLabel : String) (reg : PromRegistry) : PromRegistry :=
  { collectors := reg.collectors.filter fun c =>
      ¬ (c = ("response_code", zoneLabel) ∨ c = ("connection_types", zoneLabel) ∨
         c = ("query_type", zoneLabel)) }

/-- Registry plus the key set of `MetricsInner::zone_metrics`, for the zone
registration lifecycle. -/
structure MetricsRegState where
  registry : PromRegistry
  zoneTable : List String
deriving DecidableEq

/-- Rust `Metrics::register_zone`: build and register the five vectors, then
insert the `ZoneMetrics` value into the table. -/
def Metrics.register_zone (s : MetricsRegState) (zone : String) : MetricsRegState :=
  { registry := ZoneMetrics.register zone s.registry
    zoneTable := if s.zoneTable.contains zone then s.zoneTable else s.zoneTable ++ [zone] }

/-- Rust `Metrics::unregister_zone`: remove the zone from the table and, when it
was present, call `ZoneMetrics::unregister` on the removed value. -/
def Metrics.unregister_zone (s : MetricsRegState) (zone : String) : MetricsRegState :=
  if s.zoneTable.contains zone then
    { registry := ZoneMetrics.unregister zone s.registry
      zoneTable := s.zoneTable.filter fun z => z ≠ zone }
  else s

/-- Split the flat `HGETALL` reply into field/value pairs
(`chunks_exact(2)`: a trailing odd element is dropped). -/
def chunkPairs {α : Type} : List α → List (α × α)
  | a :: b :: rest => (a, b) :: chunkPairs rest
  | _ => []

/-- The loop of `RedisClusterClient::lookup_records` over the field/value
chunks: a field that fails UTF-8 decoding, or a value that fails JSON
decoding once its field matches, propagates as an error (the `?` operator);
the first chunk whose field equals the record-type string yields its decoded
records; when no chunk matches the result is `Some([])`. `utf8` and `parse`
stand for `String::from_utf8` and `serde_json::from_slice`. -/
def redisFindChunk (utf8 : List Nat → Option String)
    (parse : List Nat → Option (List StorageRecord))
    (rtype : RecordType) : List (List Nat × List Nat) → LookupResult
  | [] => .ok (some [])
  | (k, v) :: rest =>
    match utf8 k with
    | none => .error ()
    | some s =>
      if s = rtype.label then
        match parse v with
        | none => .error ()
        | some recs => .ok (some recs)
      else redisFindChunk utf8 parse rtype rest

/-- Rust `RedisClusterClient::lookup_records`, given the raw `HGETALL` reply for
the key `resource:<zone>:<domain>` as a flat list of byte strings: an empty
reply is `Ok(None)`; a reply of odd length is logged and is also `Ok(None)`;
otherwise the chunks are scanned for the requested type. -/
def RedisClusterClient.lookup_records (utf8 : List Nat → Option String)
    (parse : List Nat → Option (List StorageRecord))
    (data : List (List Nat)) (rtype : RecordType) : LookupResult :=
  if data.isEmpty then .ok none
  else if data.length % 2 ≠ 0 then .ok none
  else redisFindChunk utf8 parse rtype (chunkPairs data)

/-- The response code of a sent message, `none` after a panic. -/
def sentRcode (o : Outcome) : Option ResponseCode :=
  match o with
  | .panicked => none
  | .sent resp => some resp.header.rcode

/-- Counters with every series absent (all exposed values 0). -/
def emptyCounters : ZoneCounters := ⟨[], [], [], [], []⟩

/-- The zone `example.com.`. -/
def z0 : Name := ["example", "com"]

/-- Metric state with the zone `example.com.` registered and all counters 0. -/
def m0 : MetricsState := ⟨[(z0, emptyCounters)], emptyCounters⟩

/-- Metric state with no zone registered. -/
def mU : MetricsState := ⟨[], emptyCounters⟩

/-- A standard `example.com. IN A` query over UDP from an IPv4 source. -/
def req0 : Request :=
  { header := { mtype := .query, opcode := .query, rcode := .noError, aa := false }
    qclass := .IN
    qname := ["example", "com"]
    qnameOriginal := ["ExAmPlE", "COM"]
    qtype := .A
    srcIsV4 := true
    proto := .udp
    edns := none }

/-- The SOA record stored at the apex of `example.com.`. -/
def soa0 : StorageRecord := ⟨["example", "com"], .SOA, 0⟩

/-- A query like `req0` whose header carries nonzero RCODE bits. -/
def reqEcho : Request := { req0 with header := { req0.header with rcode := .servFail } }

/-- An `example.org. IN A` query: outside the zone `example.com.`. -/
def reqOrg : Request :=
  { req0 with qname := ["example", "org"], qnameOriginal := ["example", "org"] }

/-- Bumping a counter raises exactly the bumped series by one. -/
theorem countOf_bump {α : Type} [DecidableEq α] (k : α) (l : List (α × Nat)) :
    countOf k (bump k l) = countOf k l + 1 := by
  induction l with
  | nil => simp [bump, countOf]
  | cons p t ih =>
    obtain ⟨k', n⟩ := p
    by_cases h : k = k' <;> simp [bump, countOf, h, ih]

/-- Applying `modifyZone` on an absent key leaves the table unchanged. -/
theorem modifyZone_lookup_none (z : Name) (f : ZoneCounters → ZoneCounters)
    (t : List (Name × ZoneCounters)) (h : lookupZone z t = none) :
    modifyZone z f t = t := by
  induction t with
  | nil => rfl
  | cons p t ih =>
    obtain ⟨z', c⟩ := p
    by_cases hz : z = z'
    · simp [lookupZone, hz] at h
    · simp only [lookupZone, hz, if_neg] at h
      simp [modifyZone, hz, ih h]

/-- C1, counterexample: with the SOA lookup returning `Ok(None)` on the zone
path, the handler panics on the `expect` instead of replying ServFail. -/
theorem c1_counterexample :
    (query_zone req0 z0 (.ok (none, none)) (.ok none) (.ok none) m0).outcome =
      .panicked ∧
    (query_zone req0 z0 (.ok (none, none)) (.ok none) (.ok none) m0).outcome ≠
      .sent (reply_error req0 .servFail) := by
  constructor
  · rfl
  · decide

/-- C1, amended: on the zone path (geo lookup successful), an SOA lookup
returning `Ok(None)` makes the handler panic rather than reply, and an SOA
lookup returning `Ok(Some([]))` is not answered ServFail either: the handler
proceeds along the normal composition with an empty SOA list, so the reply
has an empty authority section and code NXDomain or the request header's
code according to the record lookup. Only an `Err` yields ServFail. -/
theorem c1_soa_degenerate_cases (req : Request) (zone : Name) (c k : Option String)
    (rl : LookupResult) (r : Option (List StorageRecord)) (m : MetricsState) :
    (query_zone req zone (.ok (c, k)) (.ok none) rl m).outcome = .panicked ∧
    (query_zone req zone (.ok (c, k)) (.ok (some [])) (.ok r) m).outcome =
      .sent { header := { req.header with
                            aa := true
                            mtype := .response
                            rcode := if r = none then .nxDomain else req.header.rcode }
              answers := (r.getD []).map fun sr => { sr with name := req.qnameOriginal }
              authority := []
              additionals := []
              edns := req.edns } := by
  constructor
  · cases c <;> rfl
  · cases r with
    | none => cases c <;> rfl
    | some rs => cases rs <;> cases c <;> rfl

/-- C2, counterexample: the rows of the response table that the claim labels
NoError actually echo the request header's RCODE bits; a query arriving with
ServFail bits in its header and a `Some([])` record lookup is answered with
code ServFail, not NoError. -/
theorem c2_counterexample :
    sentRcode (query_zone reqEcho z0 (.ok (none, none)) (.ok (some [soa0]))
        (.ok (some [])) m0).outcome = some ResponseCode.servFail ∧
    some ResponseCode.servFail ≠ some ResponseCode.noError := by
  constructor
  · rfl
  · decide

/-- C2, amended: on the zone path with both lookups successful, the reply is
composed per the table: lookup `None` gives RCODE NXDomain, empty answers,
the SOA records in the authority section; `Some([])` gives the request
header's RCODE (NoError for a standard query), empty answers, SOAs in
authority; `Some` of a non-empty list gives the request header's RCODE, the
records with owner names replaced by the original cased query name as
answers, and an empty authority section. Additionals are always empty and
the request's EDNS payload is echoed. -/
theorem c2_response_table (req : Request) (zone : Name) (c k : Option String)
    (soas : List StorageRecord) (r : Option (List StorageRecord)) (m : MetricsState) :
    (r = none →
      (query_zone req zone (.ok (c, k)) (.ok (some soas)) (.ok r) m).outcome =
        .sent { header := { req.header with
                              aa := true
                              mtype := .response
                              rcode := .nxDomain }
                answers := []
                authority := soas
                additionals := []
                edns := req.edns }) ∧
    (r = some [] →
      (query_zone req zone (.ok (c, k)) (.ok (some soas)) (.ok r) m).outcome =
        .sent { header := { req.header with aa := true, mtype := .response }
                answers := []
                authority := soas
                additionals := []
                edns := req.edns }) ∧
    (∀ x xs, r = some (x :: xs) →
      (query_zone req zone (.ok (c, k)) (.ok (some soas)) (.ok r) m).outcome =
        .sent { header := { req.header with aa := true, mtype := .response }
                answers := (x :: xs).map fun sr => { sr with name := req.qnameOriginal }
                authority := []
                additionals := []
                edns := req.edns }) := by
  refine ⟨?_, ?_, ?_⟩
  · rintro rfl; cases c <;> rfl
  · rintro rfl; cases c <;> rfl
  · rintro x xs rfl; cases c <;> rfl

/-- C2, witness: the `Some([])` row of the amended table at a concrete
query, SOA set and metric state. -/
theorem c2_response_table_witness :
    (query_zone req0 z0 (.ok (none, none)) (.ok (some [soa0])) (.ok (some []))
        m0).outcome =
      .sent { header := { req0.header with aa := true, mtype := .response }
              answers := []
              authority := [soa0]
              additionals := []
              edns := req0.edns } :=
  (c2_response_table req0 z0 none none [soa0] (some []) m0).2.1 rfl

/-- C3, counterexample: a well-formed IN query outside every known zone is
answered ServFail, not Refused, when the GeoIP lookup for the source address
fails. -/
theorem c3_counterexample :
    sentRcode (handle_request reqOrg [z0] (.error ()) (.ok none) (.ok none)
        m0).outcome = some ResponseCode.servFail ∧
    some ResponseCode.servFail ≠ some ResponseCode.refused := by
  constructor
  · rfl
  · decide

/-- C3, amended: for every IN-class query whose name is under no zone of the
snapshot, provided the GeoIP lookup succeeds, the reply is Refused, the
UNKNOWN-zone `response_code` counter for `REFUSED` increments by exactly one,
and the per-zone metrics table (every `zone != UNKNOWN` series) is unchanged;
when the GeoIP lookup fails, the reply is ServFail instead (the per-zone
table is still unchanged). -/
theorem c3_unknown_zone_refused (req : Request) (zones : List Name)
    (c k : Option String) (soaLookup recLookup : LookupResult) (m : MetricsState)
    (h1 : req.header.mtype = .query) (h2 : req.header.opcode = .query)
    (h3 : req.qclass = .IN) (h4 : find_authority zones req.qname = none) :
    (handle_request req zones (.ok (c, k)) soaLookup recLookup m).outcome =
      .sent (reply_error req .refused) ∧
    countOf "REFUSED"
        (handle_request req zones (.ok (c, k)) soaLookup recLookup
            m).metrics.unknownMetrics.response_codes =
      countOf "REFUSED" m.unknownMetrics.response_codes + 1 ∧
    (handle_request req zones (.ok (c, k)) soaLookup recLookup m).metrics.zoneMetrics =
      m.zoneMetrics ∧
    (handle_request req zones (.error ()) soaLookup recLookup m).outcome =
      .sent (reply_error req .servFail) ∧
    (handle_request req zones (.error ()) soaLookup recLookup m).metrics.zoneMetrics =
      m.zoneMetrics := by
  obtain ⟨⟨mt, oc, rc, aa⟩, qc, qn, qno, qt, v4, pr, ed⟩ := req
  simp only [Header.mtype] at h1
  simp only [Header.opcode] at h2
  simp only [Request.qclass] at h3
  simp only [Request.qname] at h4
  subst h1; subst h2; subst h3
  simp only [handle_request, query, query_unknown_zone, ne_eq, reduceIte, h4,
    increment_unknown_zone_query_class, increment_unknown_zone_connection_type,
    increment_unknown_zone_record_type, increment_unknown_zone_response_code,
    increment_unknown_zone_country_query]
  cases c <;>
    simp [countOf_bump, ResponseCode.to_str]

/-- C3, witness: the amended statement at a concrete `example.org. IN A`
query with the snapshot holding only `example.com.`. -/
theorem c3_unknown_zone_refused_witness :
    (handle_request reqOrg [z0] (.ok (none, none)) (.ok none) (.ok none)
        m0).outcome = .sent (reply_error reqOrg .refused) :=
  (c3_unknown_zone_refused reqOrg [z0] none none (.ok none) (.ok none) m0
    rfl rfl rfl rfl).1

/-- C4: `register_zone` adds the five counter vectors of the zone to the
registry, but `unregister_zone` removes only `response_code`,
`connection_types` and `query_type`: the `query_class` and `country_queries`
collectors for the zone remain registered and exposed, contradicting both
the claim and the stated purpose of `unregister` in the source. -/
theorem c4_unregister_incomplete :
    (Metrics.register_zone ⟨⟨[]⟩, []⟩ "example.com.").registry.collectors =
      [("response_code", "example.com."), ("query_type", "example.com."),
       ("query_class", "example.com."), ("connection_types", "example.com."),
       ("country_queries", "example.com.")] ∧
    (Metrics.unregister_zone (Metrics.register_zone ⟨⟨[]⟩, []⟩ "example.com.")
        "example.com.").registry.collectors =
      [("query_class", "example.com."), ("country_queries", "example.com.")] ∧
    (Metrics.unregister_zone (Metrics.register_zone ⟨⟨[]⟩, []⟩ "example.com.")
        "example.com.").registry.collectors ≠ [] := by
  refine ⟨by rfl, by rfl, by decide⟩

/-- C5, counterexample: error replies copy the request header without
clearing the AA bit, so a rejected message that arrived with AA set is
answered NotImp with AA still 1, not 0. -/
theorem c5_counterexample :
    (handle_request { req0 with header := { req0.header with mtype := .response, aa := true } }
        [] (.ok (none, none)) (.ok none) (.ok none) m0).outcome =
      .sent (reply_error { req0 with header := { req0.header with mtype := .response, aa := true } }
        .notImp) ∧
    (reply_error { req0 with header := { req0.header with mtype := .response, aa := true } }
        .notImp).header.aa = true := by
  constructor
  · rfl
  · rfl

/-- C5, amended: every reply built on the normal zone path (including
NXDomain and NoData) has AA = 1 and message type Response; every error reply
(NotImp, Refused, ServFail) has message type Response and an AA bit equal to
the request header's AA bit — the handler never sets it, so it is 0 exactly
when the request did not carry AA. -/
theorem c5_aa_and_message_type :
    (∀ (req : Request) (code : ResponseCode),
      (reply_error req code).header.mtype = .response ∧
      (reply_error req code).header.aa = req.header.aa ∧
      (reply_error req code).header.rcode = code) ∧
    (∀ (req : Request) (zone : Name) (c k : Option String)
        (soas : List StorageRecord) (r : Option (List StorageRecord))
        (m : MetricsState) (msg : DnsResponse),
      (query_zone req zone (.ok (c, k)) (.ok (some soas)) (.ok r) m).outcome =
          .sent msg →
        msg.header.aa = true ∧ msg.header.mtype = .response) := by
  constructor
  · intro req code
    exact ⟨rfl, rfl, rfl⟩
  · intro req zone c k soas r m msg h
    cases r with
    | none =>
      cases c <;> (simp only [query_zone] at h) <;>
        (cases h; exact ⟨rfl, rfl⟩)
    | some rs =>
      cases rs <;> cases c <;> (simp only [query_zone] at h) <;>
        (cases h; exact ⟨rfl, rfl⟩)

/-- The NoData reply the zone path builds for `req0` with SOA set `[soa0]`
and a record lookup returning `Some([])`. -/
def respNoData : DnsResponse :=
  { header := { req0.header with aa := true, mtype := .response }
    answers := []
    authority := [soa0]
    additionals := []
    edns := req0.edns }

/-- C5, witness: the error conjunct applied to a concrete Refused reply and
the authoritative conjunct applied to a concrete NoData reply. -/
theorem c5_aa_and_message_type_witness :
    ((reply_error req0 .refused).header.mtype = .response ∧
      (reply_error req0 .refused).header.aa = req0.header.aa ∧
      (reply_error req0 .refused).header.rcode = .refused) ∧
    (respNoData.header.aa = true ∧ respNoData.header.mtype = .response) :=
  ⟨c5_aa_and_message_type.1 req0 .refused,
   c5_aa_and_message_type.2 req0 z0 none none [soa0] (some []) m0 respNoData rfl⟩

/-- C6: classification happens in order: a `Response` message is answered
NotImp regardless of anything else; a query whose opcode is Status, Notify
or Update is answered NotImp; a remaining query with class other than IN is
answered Refused; and a query passing all three checks is dispatched on the
authority lookup (zone path on a hit, unknown-zone path on a miss). The
rejected messages never touch the metric state or depend on the snapshot. -/
theorem c6_classification :
    (∀ (req : Request) (zones : List Name) (geo : GeoResult)
        (sl rl : LookupResult) (m : MetricsState),
      req.header.mtype = .response →
        handle_request req zones geo sl rl m = ⟨m, .sent (reply_error req .notImp)⟩) ∧
    (∀ (req : Request) (zones : List Name) (geo : GeoResult)
        (sl rl : LookupResult) (m : MetricsState),
      req.header.mtype = .query →
      (req.header.opcode = .status ∨ req.header.opcode = .notify ∨
        req.header.opcode = .update) →
        handle_request req zones geo sl rl m = ⟨m, .sent (reply_error req .notImp)⟩) ∧
    (∀ (req : Request) (zones : List Name) (geo : GeoResult)
        (sl rl : LookupResult) (m : MetricsState),
      req.header.mtype = .query → req.header.opcode = .query →
      req.qclass ≠ .IN →
        handle_request req zones geo sl rl m = ⟨m, .sent (reply_error req .refused)⟩) ∧
    (∀ (req : Request) (zones : List Name) (geo : GeoResult)
        (sl rl : LookupResult) (m : MetricsState),
      req.header.mtype = .query → req.header.opcode = .query →
      req.qclass = .IN →
        handle_request req zones geo sl rl m =
          match find_authority zones req.qname with
          | some zone => query_zone req zone geo sl rl m
          | none => query_unknown_zone req geo m) := by
  refine ⟨?_, ?_, ?_, ?_⟩
  · intro req zones geo sl rl m h
    simp only [handle_request, h]
  · intro req zones geo sl rl m h1 h2
    rcases h2 with h2 | h2 | h2 <;> simp only [handle_request, h1, h2]
  · intro req zones geo sl rl m h1 h2 h3
    simp only [handle_request, h1, h2, query, ne_eq, h3, not_false_eq_true, if_true]
  · intro req zones geo sl rl m h1 h2 h3
    simp only [handle_request, h1, h2, query, ne_eq, h3, not_true_eq_false, if_false]

/-- C6, witness: a Response-typed message, a Notify, a CH-class query and an
in-zone IN query, each classified as the claim states. -/
theorem c6_classification_witness :
    handle_request { req0 with header := { req0.header with mtype := .response } }
        [z0] (.ok (none, none)) (.ok none) (.ok none) m0 =
      ⟨m0, .sent (reply_error { req0 with header := { req0.header with mtype := .response } }
        .notImp)⟩ ∧
    handle_request { req0 with header := { req0.header with opcode := .notify } }
        [z0] (.ok (none, none)) (.ok none) (.ok none) m0 =
      ⟨m0, .sent (reply_error { req0 with header := { req0.header with opcode := .notify } }
        .notImp)⟩ ∧
    handle_request { req0 with qclass := .CH }
        [z0] (.ok (none, none)) (.ok none) (.ok none) m0 =
      ⟨m0, .sent (reply_error { req0 with qclass := .CH } .refused)⟩ :=
  ⟨c6_classification.1 _ [z0] (.ok (none, none)) (.ok none) (.ok none) m0 rfl,
   c6_classification.2.1 _ [z0] (.ok (none, none)) (.ok none) (.ok none) m0 rfl
     (Or.inr (Or.inl rfl)),
   c6_classification.2.2.1 _ [z0] (.ok (none, none)) (.ok none) (.ok none) m0 rfl rfl
     (by decide)⟩

/-- Filtering a list by non-membership in itself yields the empty list. -/
theorem filter_not_contains_self (l : List Name) :
    (l.filter fun z => !l.contains z) = [] := by
  rw [List.filter_eq_nil_iff]
  intro a ha
  simp [ha]

/-- C7: refreshing twice with the same successful `zones()` output is
idempotent: the second tick registers no zone, unregisters no zone, and
leaves the cache snapshot and the metrics table exactly as the first tick
left them. -/
theorem c7_refresh_idempotent (s : LoaderState) (zs : List Name) :
    zone_loader_tick (zone_loader_tick s (.ok zs)).state (.ok zs) =
      ⟨(zone_loader_tick s (.ok zs)).state, [], []⟩ := by
  simp only [zone_loader_tick, filter_not_contains_self, List.foldl_nil]

/-- C8: a refresh tick on which `zones()` fails changes nothing: the cache
and the metrics table are untouched and no zone is registered or
unregistered. -/
theorem c8_zones_error_skips_tick (s : LoaderState) (e : Unit) :
    zone_loader_tick s (.error e) = ⟨s, [], []⟩ := rfl

/-- C9: for a zone absent from the zone-metrics table, each of the five
per-zone increment operations is a silent no-op: the metric state is
returned unchanged and no error is signalled (the functions are total). -/
theorem c9_increment_missing_zone (m : MetricsState) (z : Name) (rt : RecordType)
    (rc : ResponseCode) (cl : DNSClass) (v4 : Bool) (pr : Protocol) (co : String)
    (h : lookupZone z m.zoneMetrics = none) :
    increment_zone_record_type m z rt = m ∧
    increment_zone_response_code m z rc = m ∧
    increment_zone_query_class m z cl = m ∧
    increment_zone_connection_type m z v4 pr = m ∧
    increment_zone_country_query m z co = m := by
  refine ⟨?_, ?_, ?_, ?_, ?_⟩ <;>
    simp [increment_zone_record_type, increment_zone_response_code,
      increment_zone_query_class, increment_zone_connection_type,
      increment_zone_country_query, modifyZone_lookup_none _ _ _ h]

/-- C9, witness: the five no-ops at a concrete empty table. -/
theorem c9_increment_missing_zone_witness :
    increment_zone_record_type mU z0 .A = mU ∧
    increment_zone_response_code mU z0 .refused = mU ∧
    increment_zone_query_class mU z0 .IN = mU ∧
    increment_zone_connection_type mU z0 true .udp = mU ∧
    increment_zone_country_query mU z0 "BE" = mU :=
  c9_increment_missing_zone mU z0 .A .refused .IN true .udp "BE" rfl

/-- C10: the redis backend maps an empty `HGETALL` reply to `Ok(None)`, and
also maps a malformed reply with an odd number of entries to `Ok(None)`; fed
into the zone path, such a malformed reply therefore produces an NXDomain
response (with the SOA in the authority section) rather than a ServFail. -/
theorem c10_redis_odd_reply (utf8 : List Nat → Option String)
    (parse : List Nat → Option (List StorageRecord)) (data : List (List Nat))
    (rtype : RecordType) :
    (data = [] → RedisClusterClient.lookup_records utf8 parse data rtype = .ok none) ∧
    (data.length % 2 = 1 →
      RedisClusterClient.lookup_records utf8 parse data rtype = .ok none) ∧
    (∀ (req : Request) (zone : Name) (c k : Option String)
        (soas : List StorageRecord) (m : MetricsState),
      data.length % 2 = 1 →
        (query_zone req zone (.ok (c, k)) (.ok (some soas))
            (RedisClusterClient.lookup_records utf8 parse data rtype) m).outcome =
          .sent { header := { req.header with
                              aa := true
                              mtype := .response
                              rcode := .nxDomain }
                  answers := []
                  authority := soas
                  additionals := []
                  edns := req.edns }) := by
  have hodd : data.length % 2 = 1 →
      RedisClusterClient.lookup_records utf8 parse data rtype = .ok none := by
    intro h
    have hne : ¬ data.isEmpty = true := by
      intro he
      rw [List.isEmpty_iff] at he
      subst he
      simp at h
    unfold RedisClusterClient.lookup_records
    rw [if_neg hne, if_pos]
    omega
  refine ⟨?_, hodd, ?_⟩
  · intro h
    subst h
    rfl
  · intro req zone c k soas m h
    rw [hodd h]
    cases c <;> rfl

/-- C10, witness: a one-element (odd) reply is reported as `Ok(None)`. -/
theorem c10_redis_odd_reply_witness :
    RedisClusterClient.lookup_records (fun _ => none) (fun _ => none) [[0]] .A =
      .ok none :=
  (c10_redis_odd_reply (fun _ => none) (fun _ => none) [[0]] .A).2.1 rfl

end Cetus
